import Mathlib

/-!
Shallow embedding of the gtm_tracker repository (Python) in Lean 4:
the in-memory record store (`app/storage.py`), the slash-command handlers
(`app/slack_handlers.py`), request verification and modal parsing
(`app/slack_utils.py`), the SQLAlchemy-backed CRUD layer (`app/crud.py`,
`app/schemas.py`, `app/models.py`) and the two CSV importers
(`app/import_data.py`, `app/utils.py`), together with theorems settling
the specification claims about them.

Conventions of the embedding:
- Python `None` becomes `Option.none`; optional text/int fields become
  `Option String` / `Option Int`.
- Python truthiness is made explicit (`strTruthy`, `optStrTruthy`,
  `optIntTruthy`, ...): an empty string, `None`, `0` and `0.0` are falsy.
- `datetime.utcnow().isoformat()` is an external clock; functions that
  stamp records take the current time as an explicit `now : String`.
- Library primitives with no Python source in the repo (HMAC-SHA256,
  `strptime`, `float(...)`, Slack/markdown-file collaborators) are taken
  as explicit function parameters of the definitions that call them.
- Code that raises an uncaught exception is embedded in `Except String`.
-/

/-- Truthiness of a Python `str`: empty string is falsy. -/
def strTruthy (s : String) : Bool := s ≠ ""

/-- Truthiness of a Python `Optional[str]`: `None` and `""` are falsy. -/
def optStrTruthy : Option String → Bool
  | some s => s ≠ ""
  | none => false

/-- Truthiness of a Python `Optional[int]`: `None` and `0` are falsy. -/
def optIntTruthy : Option Int → Bool
  | some n => n ≠ 0
  | none => false

/-- Python `value or None` on an `Optional[str]`: empty string collapses to `None`. -/
def pyOrNone : Option String → Option String
  | some s => if s = "" then none else some s
  | none => none

/-- Python `s or None` on a `str`: empty string becomes `None`. -/
def strOrNone (s : String) : Option String := if s = "" then none else some s

/-- Python `a or b` on two `str` values: `a` if non-empty, else `b`. -/
def pyOrStr (a b : String) : String := if a = "" then b else a

/-- Python `x or 'N/A'` used when rendering an `Optional[str]` field. -/
def orNA : Option String → String
  | some s => if s = "" then "N/A" else s
  | none => "N/A"

/-- Python `x or 'N/A'` used when rendering an `Optional[int]` field (`0` is falsy). -/
def orNAInt : Option Int → String
  | some n => if n = 0 then "N/A" else toString n
  | none => "N/A"

/-- Python `x or 'N/A'` used when rendering an `Optional[float]` field (`0.0` is falsy). -/
def orNAFloat : Option Float → String
  | some f => if f == 0.0 then "N/A" else toString f
  | none => "N/A"

/-- Lower-casing of a Python `str` (`str.lower()`), character-wise. -/
def pyLower (s : String) : String := String.mk (s.data.map Char.toLower)

/-- Python `str.strip()`: remove leading and trailing whitespace. -/
def pyStrip (s : String) : String :=
  String.mk (((s.data.dropWhile Char.isWhitespace).reverse.dropWhile Char.isWhitespace).reverse)

/-- Python `s.startswith(pre)`. -/
def pyStartsWith (s pre : String) : Bool := pre.data.isPrefixOf s.data

/-- Python `s.endswith(suf)`. -/
def pyEndsWith (s suf : String) : Bool := suf.data.isSuffixOf s.data

/-- Python `s[n:]` (character slicing). -/
def pyDrop (s : String) (n : Nat) : String := String.mk (s.data.drop n)

/-- Python `s[:-n]` (character slicing). -/
def pyDropRight (s : String) (n : Nat) : String := String.mk (s.data.take (s.data.length - n))

/-- Python `s[:n]` (character slicing). -/
def pyTake (s : String) (n : Nat) : String := String.mk (s.data.take n)

/-- Python `len(s)` in characters. -/
def pyLen (s : String) : Nat := s.data.length

/-- Decimal-digit parse of a character list: `some` exactly when the list is
non-empty and all digits. -/
def parseDigits (l : List Char) : Option Nat :=
  if l.isEmpty then none
  else if l.all Char.isDigit then
    some (l.foldl (fun acc c => acc * 10 + (c.toNat - 48)) 0)
  else none

/-- Python `int(s)` on a string, as a partial parse: optional surrounding
whitespace, optional sign, then decimal digits; `none` models `ValueError`. -/
def parseIntPy (s : String) : Option Int :=
  let t := pyStrip s
  if pyStartsWith t "-" then (parseDigits (pyDrop t 1).data).map (fun n => -(n : Int))
  else if pyStartsWith t "+" then (parseDigits (pyDrop t 1).data).map (fun n => (n : Int))
  else (parseDigits t.data).map (fun n => (n : Int))

/-- Python `text.split("|")` (single-character separator), via `List.splitOn`
on the character data; matches CPython on all inputs, e.g. `"".split("|") = [""]`. -/
def pySplitPipe (s : String) : List String :=
  (s.data.splitOn '|').map (fun l => String.mk l)

/-- Python `needle in hay` on strings: contiguous-substring test. -/
def strContains (hay needle : String) : Bool :=
  decide (needle.data <:+: hay.data)

/-! ## `app/storage.py` — the in-memory record store -/

/-- The `GTMActivity` dataclass of `app/storage.py` (all dates kept as ISO
strings there, timestamps as isoformat strings). -/
structure GTMActivity where
  id : Int
  hypothesis : String
  audience : Option String := none
  channels : Option String := none
  description : Option String := none
  list_size : Option Int := none
  meetings_booked : Option Int := none
  start_date : Option String := none
  end_date : Option String := none
  est_weekly_hrs : Option Float := none
  created_at : String
  updated_at : String
deriving Repr

/-- `InMemoryStorage`: the dict `activities` is kept as an association list
in insertion order (CPython dicts preserve insertion order), plus `next_id`. -/
structure InMemoryStorage where
  activities : List (Int × GTMActivity) := []
  next_id : Int := 1
deriving Repr

/-- `InMemoryStorage.__init__`: empty dict, `next_id = 1`. -/
def initStorage : InMemoryStorage := {}

/-- `InMemoryStorage.create`: builds the activity with `id = next_id` and
both timestamps set to the current time, stores it under `next_id` (a fresh
dict key, appended), increments `next_id`, returns the record. The
`**kwargs` of the Python signature are the remaining dataclass fields. -/
def InMemoryStorage.create (s : InMemoryStorage) (now : String) (hypothesis : String)
    (audience : Option String := none) (channels : Option String := none)
    (description : Option String := none) (list_size : Option Int := none)
    (meetings_booked : Option Int := none) (start_date : Option String := none)
    (end_date : Option String := none) (est_weekly_hrs : Option Float := none) :
    GTMActivity × InMemoryStorage :=
  let activity : GTMActivity :=
    { id := s.next_id, hypothesis := hypothesis, audience := audience,
      channels := channels, description := description, list_size := list_size,
      meetings_booked := meetings_booked, start_date := start_date,
      end_date := end_date, est_weekly_hrs := est_weekly_hrs,
      created_at := now, updated_at := now }
  (activity, { activities := s.activities ++ [(s.next_id, activity)],
               next_id := s.next_id + 1 })

/-- `InMemoryStorage.get`: `self.activities.get(activity_id)`. -/
def InMemoryStorage.get (s : InMemoryStorage) (activity_id : Int) : Option GTMActivity :=
  s.activities.lookup activity_id

/-- The filter predicate of `InMemoryStorage.list_all`: case-insensitive
substring match against hypothesis, audience or channels, with Python
truthiness guards on each field. -/
def matchesFilter (filter_lower : String) (a : GTMActivity) : Bool :=
  (strTruthy a.hypothesis && strContains (pyLower a.hypothesis) filter_lower)
  || (optStrTruthy a.audience && strContains (pyLower (a.audience.getD "")) filter_lower)
  || (optStrTruthy a.channels && strContains (pyLower (a.channels.getD "")) filter_lower)

/-- Stable insertion step for sorting by id descending (models the stable
CPython `list.sort(key=..., reverse=True)`). -/
def insertByIdDesc (a : GTMActivity) : List GTMActivity → List GTMActivity
  | [] => [a]
  | b :: bs => if a.id ≤ b.id then b :: insertByIdDesc a bs else a :: b :: bs

/-- Stable sort by id descending. -/
def sortByIdDesc : List GTMActivity → List GTMActivity
  | [] => []
  | a :: rest => insertByIdDesc a (sortByIdDesc rest)

/-- `InMemoryStorage.list_all`: dict values in insertion order, optional
truthy filter, sort by id descending, first `limit` entries. -/
def InMemoryStorage.list_all (s : InMemoryStorage) (limit : Nat)
    (filter_text : Option String) : List GTMActivity :=
  let activities := s.activities.map (fun p => p.2)
  let activities :=
    if optStrTruthy filter_text then
      activities.filter (matchesFilter (pyLower (filter_text.getD "")))
    else activities
  (sortByIdDesc activities).take limit

/-- A `**kwargs` dictionary passed to `InMemoryStorage.update`. For each
attribute name of `GTMActivity`, the outer `Option` records whether the key
is present in the dict and the inner value is the Python value supplied
(`none` = Python `None`). `unknownKeys` are dict keys that are not attribute
names of the dataclass; `hasattr` fails for them and they are ignored. -/
structure UpdateKwargs where
  id : Option (Option Int) := none
  hypothesis : Option (Option String) := none
  audience : Option (Option String) := none
  channels : Option (Option String) := none
  description : Option (Option String) := none
  list_size : Option (Option Int) := none
  meetings_booked : Option (Option Int) := none
  start_date : Option (Option String) := none
  end_date : Option (Option String) := none
  est_weekly_hrs : Option (Option Float) := none
  created_at : Option (Option String) := none
  updated_at : Option (Option String) := none
  unknownKeys : List String := []

/-- One step of the `for key, value in kwargs.items()` loop for a plain
(non-optional) attribute: `setattr` runs only when the key is present and
its value is not `None`. -/
def applyKwV {α : Type} (cur : α) : Option (Option α) → α
  | some (some v) => v
  | _ => cur

/-- One step of the kwargs loop for an `Optional[...]` attribute: the stored
value changes only when the key is present with a non-`None` value. -/
def applyKwO {α : Type} (cur : Option α) : Option (Option α) → Option α
  | some (some v) => some v
  | _ => cur

/-- `InMemoryStorage.update`: returns `None` when the id is absent;
otherwise applies every kwargs entry whose key is an attribute and whose
value is not `None`, then unconditionally refreshes `updated_at` (the
refresh on line 84 runs after the loop, so it overrides any `updated_at`
passed in kwargs). Unknown keys fail `hasattr` and contribute nothing. -/
def InMemoryStorage.update (s : InMemoryStorage) (activity_id : Int)
    (kw : UpdateKwargs) (now : String) : Option GTMActivity × InMemoryStorage :=
  match s.activities.lookup activity_id with
  | none => (none, s)
  | some a =>
    let a1 : GTMActivity :=
      { id := applyKwV a.id kw.id,
        hypothesis := applyKwV a.hypothesis kw.hypothesis,
        audience := applyKwO a.audience kw.audience,
        channels := applyKwO a.channels kw.channels,
        description := applyKwO a.description kw.description,
        list_size := applyKwO a.list_size kw.list_size,
        meetings_booked := applyKwO a.meetings_booked kw.meetings_booked,
        start_date := applyKwO a.start_date kw.start_date,
        end_date := applyKwO a.end_date kw.end_date,
        est_weekly_hrs := applyKwO a.est_weekly_hrs kw.est_weekly_hrs,
        created_at := applyKwV a.created_at kw.created_at,
        updated_at := applyKwV a.updated_at kw.updated_at }
    let a2 : GTMActivity := { a1 with updated_at := now }
    (some a2,
     { s with activities :=
         s.activities.map (fun p => if p.1 = activity_id then (p.1, a2) else p) })

/-- `InMemoryStorage.delete`: removes the key if present, reports whether
it existed. -/
def InMemoryStorage.delete (s : InMemoryStorage) (activity_id : Int) :
    Bool × InMemoryStorage :=
  if s.activities.any (fun p => p.1 == activity_id) then
    (true, { s with activities := s.activities.filter (fun p => p.1 != activity_id) })
  else
    (false, s)

/-! ## Operation sequences over the store (for the id-monotonicity claim) -/

/-- A create or delete operation against the in-memory store, with the
payload of the create call. -/
inductive StoreOp where
  | create (now hypothesis : String) (audience channels description : Option String)
      (list_size meetings_booked : Option Int) (start_date end_date : Option String)
      (est_weekly_hrs : Option Float)
  | delete (activity_id : Int)

/-- Apply one operation to the store, discarding the returned value. -/
def applyOp (s : InMemoryStorage) : StoreOp → InMemoryStorage
  | .create now h au ch d ls mb sd ed ewh =>
      (s.create now h au ch d ls mb sd ed ewh).2
  | .delete i => (s.delete i).2

/-- The ids returned by the `create` calls of an operation sequence, in
chronological order (deleted ids are not removed from this history). -/
def createdIds (s : InMemoryStorage) : List StoreOp → List Int
  | [] => []
  | op :: ops =>
    match op with
    | .create now h au ch d ls mb sd ed ewh =>
        (s.create now h au ch d ls mb sd ed ewh).1.id :: createdIds (applyOp s op) ops
    | .delete _ => createdIds (applyOp s op) ops

/-! ## `app/slack_handlers.py` — slash-command handlers -/

/-- One Slack Block Kit block, restricted to the shapes this repository
constructs: a plain-text header, a divider, a mrkdwn context line, a mrkdwn
section with an optional button accessory (action id and value), a section
with a list of mrkdwn fields, and an actions row with one button. -/
inductive Block where
  | header (text : String)
  | divider
  | context (text : String)
  | sect (text : String) (accessoryActionId : Option String) (accessoryValue : Option String)
  | sectFields (fields : List String)
  | actions (actionId : String) (value : String)
deriving Repr, DecidableEq

/-- A handler response dict: `response_type` is `"ephemeral"` or
`"in_channel"`; a missing `text`/`blocks` key is represented by the empty
default. -/
structure SlackResponse where
  response_type : String
  text : String := ""
  blocks : List Block := []
deriving Repr, DecidableEq

/-- The public-keyword handling at the top of `handle_gtm_list`
(lines 55-60): a filter equal to `public` clears the filter and turns on
broadcast; a filter starting with `public ` strips the keyword (and the
result collapses to `None` when it strips to nothing). -/
def listArg (filter_text : Option String) (public : Bool) : Option String × Bool :=
  if optStrTruthy filter_text && (pyLower (filter_text.getD "") == "public") then
    (none, true)
  else if optStrTruthy filter_text && (pyStartsWith (pyLower (filter_text.getD "")) "public ") then
    (strOrNone (pyStrip (pyDrop (filter_text.getD "") 7)), true)
  else
    (filter_text, public)

/-- The per-activity mrkdwn text of a `handle_gtm_list` entry, including the
metrics line (truthiness guards: `0` counts and empty dates do not render). -/
def listItemText (a : GTMActivity) : String :=
  let metrics :=
    (if optIntTruthy a.list_size then ["📧 " ++ toString (a.list_size.getD 0)] else [])
    ++ (if optIntTruthy a.meetings_booked then
          ["📅 " ++ toString (a.meetings_booked.getD 0) ++ " meetings"] else [])
    ++ (if optStrTruthy a.start_date then ["🗓️ Started " ++ a.start_date.getD ""] else [])
  let metrics_text := if metrics.isEmpty then "No metrics yet" else String.intercalate " • " metrics
  "*#" ++ toString a.id ++ "* - " ++ a.hypothesis ++ "\n👥 " ++ orNA a.audience
    ++ " • 📢 " ++ orNA a.channels ++ "\n" ++ metrics_text

/-- The divider-plus-section pair appended for each listed activity, with
the `View Details` button accessory. -/
def listItemBlocks (a : GTMActivity) : List Block :=
  [Block.divider,
   Block.sect (listItemText a) (some ("view_activity_" ++ toString a.id)) (some (toString a.id))]

/-- `handle_gtm_list` (lines 52-132): resolve the `public` keyword, fetch at
most 10 activities, return the ephemeral no-results message when the list is
empty, else the header/context/entries blocks with `in_channel` visibility
exactly when `public` is set. -/
def handle_gtm_list (s : InMemoryStorage) (filter_text : Option String)
    (public : Bool := false) : SlackResponse :=
  let fp := listArg filter_text public
  let filter_text := fp.1
  let public := fp.2
  let activities := s.list_all 10 filter_text
  if activities.isEmpty then
    { response_type := "ephemeral",
      text := if optStrTruthy filter_text then
          "📭 No activities found matching '" ++ filter_text.getD "" ++ "'."
        else "📭 No activities found." }
  else
    { response_type := if public then "in_channel" else "ephemeral",
      blocks :=
        [Block.header ("📊 GTM Activities (" ++ toString activities.length ++ ")")]
        ++ (if optStrTruthy filter_text then
              [Block.context ("Filtered by: *" ++ filter_text.getD "" ++ "*")] else [])
        ++ activities.flatMap listItemBlocks }

/-- The public-suffix handling at the top of `handle_gtm_view`
(lines 138-140): a non-empty argument ending in ` public` (case-insensitive)
turns on broadcast and has the last 7 characters removed, then is trimmed. -/
def viewArg (activity_id_str : String) (public : Bool) : String × Bool :=
  if strTruthy activity_id_str && pyEndsWith (pyLower activity_id_str) " public" then
    (pyStrip (pyDropRight activity_id_str 7), true)
  else
    (activity_id_str, public)

/-- The detail blocks of `handle_gtm_view` for a found activity
(lines 163-277): header, field groups, optional date group, description
truncated to 497 characters plus `...` when longer than 500, creation
context (first 10 characters of the timestamp), and a share button when
viewing privately. -/
def viewDetail (activity : GTMActivity) (public : Bool) : SlackResponse :=
  let blocks :=
    [Block.header ("Activity #" ++ toString activity.id),
     Block.divider,
     Block.sectFields ["*Hypothesis*\n" ++ activity.hypothesis,
                       "*Audience*\n" ++ orNA activity.audience],
     Block.sectFields ["*Channels*\n" ++ orNA activity.channels,
                       "*List Size*\n" ++ orNAInt activity.list_size],
     Block.sectFields ["*Meetings Booked*\n" ++ orNAInt activity.meetings_booked,
                       "*Est. Weekly Hours*\n" ++ orNAFloat activity.est_weekly_hrs]]
  let blocks := blocks ++
    (if optStrTruthy activity.start_date || optStrTruthy activity.end_date then
      [Block.sectFields ["*Start Date*\n" ++ orNA activity.start_date,
                         "*End Date*\n" ++ orNA activity.end_date]]
     else [])
  let blocks := blocks ++
    (if optStrTruthy activity.description then
      let d := activity.description.getD ""
      let desc := if pyLen d > 500 then pyTake d 497 ++ "..." else d
      [Block.divider, Block.sect ("*Description*\n" ++ desc) none none]
     else [])
  let blocks := blocks ++ [Block.divider, Block.context ("Created: " ++ pyTake activity.created_at 10)]
  let blocks := blocks ++
    (if public then []
     else [Block.actions ("share_activity_" ++ toString activity.id) (toString activity.id)])
  { response_type := if public then "in_channel" else "ephemeral", blocks := blocks }

/-- The body of `handle_gtm_view` after the public-suffix strip
(lines 142-277): reject an empty argument with a usage message, reject a
non-numeric id (the `int(...)` `ValueError` is caught), report a missing id
as an ephemeral not-found message, and otherwise render the detail view. -/
def viewCore (s : InMemoryStorage) (idStr : String) (public : Bool) : SlackResponse :=
  if idStr = "" then
    { response_type := "ephemeral",
      text := "❌ Please provide an activity ID. Example: `/gtm-view 1`\nTip: Add 'public' to share with channel: `/gtm-view 1 public`" }
  else
    match parseIntPy idStr with
    | none =>
      { response_type := "ephemeral",
        text := "❌ Invalid activity ID: `" ++ idStr ++ "`. Please use a number." }
    | some activity_id =>
      match s.get activity_id with
      | none =>
        { response_type := "ephemeral",
          text := "❌ Activity #" ++ toString activity_id ++ " not found." }
      | some activity => viewDetail activity public

/-- `handle_gtm_view` (lines 135-277): the public-suffix strip followed by
the body above. -/
def handle_gtm_view (s : InMemoryStorage) (activity_id_str : String)
    (public : Bool := false) : SlackResponse :=
  let ap := viewArg activity_id_str public
  viewCore s ap.1 ap.2

/-- The usage-hint response of `handle_gtm_add` for an empty argument. -/
def addUsageResponse : SlackResponse :=
  { response_type := "ephemeral",
    text := "❌ Please provide activity details.\nFormat: `/gtm-add hypothesis | audience | channels`\nExample: `/gtm-add Test cold email | Startups | Email`" }

/-- `parts = [p.strip() for p in text.split(\"|\")]` of `handle_gtm_add`. -/
def addParts (text : String) : List String :=
  (pySplitPipe text).map pyStrip

/-- `handle_gtm_add` (lines 280-375): an empty argument gets the usage hint
and no store change; otherwise the pipe-separated, trimmed fields become
hypothesis / audience / channels (fields beyond the end of the list default
to `None`) and the record is created unconditionally — the first field is
not checked for emptiness. The `len(parts) < 1` guard of the source is kept
although `str.split` never returns an empty list. The Slack channel
notification (lines 309-361) is fire-and-forget with all errors swallowed,
so it affects neither the store nor the response. -/
def handle_gtm_add (s : InMemoryStorage) (now : String) (text : String) :
    SlackResponse × InMemoryStorage :=
  if text = "" then
    (addUsageResponse, s)
  else
    let parts := addParts text
    if parts.length < 1 then
      ({ response_type := "ephemeral",
         text := "❌ Invalid format. Use: `/gtm-add hypothesis | audience | channels`" }, s)
    else
      let hypothesis := parts.headD ""
      let audience := parts[1]?
      let channels := parts[2]?
      let cr := s.create now hypothesis audience channels
      let activity := cr.1
      ({ response_type := "ephemeral",
         text := "✅ Created activity #" ++ toString activity.id ++ ": "
                 ++ activity.hypothesis ++ "\n_Also posted to #all-set4_",
         blocks := [Block.sect
           ("✅ *Activity #" ++ toString activity.id ++ " Created*\n\n*Hypothesis:* "
            ++ activity.hypothesis ++ "\n*Audience:* " ++ orNA activity.audience
            ++ "\n*Channels:* " ++ orNA activity.channels
            ++ "\n\n_Also posted to <#all-set4>_") none none] },
       cr.2)

/-! ## `app/slack_utils.py` — signature verification and modal parsing -/

/-- `verify_slack_request` (lines 20-53). The HMAC-SHA256 hexdigest is the
`hmac`/`hashlib` library primitive, taken as the parameter `mac` (secret and
message to hex digest). The timestamp header arrives as a string; `int(...)`
raising `ValueError` on a malformed header is the `Except.error` case. With
no configured secret the function returns `True` before touching the
timestamp. The freshness window is `abs(current_time - int(timestamp)) >
60 * 5`; the signature base string uses the original header string. -/
def verify_slack_request (mac : String → String → String)
    (slack_signing_secret : String) (current_time : Int)
    (body timestamp signature : String) : Except String Bool :=
  if slack_signing_secret = "" then
    Except.ok true
  else
    match parseIntPy timestamp with
    | none => Except.error "ValueError: invalid literal for int"
    | some ts =>
      if (current_time - ts).natAbs > 60 * 5 then
        Except.ok false
      else
        let sig_basestring := "v0:" ++ timestamp ++ ":" ++ body
        let my_signature := "v0=" ++ mac slack_signing_secret sig_basestring
        Except.ok (my_signature == signature)

/-- The extracted text-input values of an update modal's state, one per
block of `create_update_modal`: the value of
`view["state"]["values"][block]["<block>_input"]["value"]`, where `none`
covers both a missing level and a `null` value. -/
structure ModalState where
  hypothesis : Option String := none
  audience : Option String := none
  channels : Option String := none
  description : Option String := none
  list_size : Option String := none
  meetings_booked : Option String := none

/-- The dict returned by `parse_modal_submission`: every one of these six
keys is always present in the result. -/
structure ParsedForm where
  hypothesis : Option String
  audience : Option String
  channels : Option String
  description : Option String
  list_size : Option Int
  meetings_booked : Option Int
deriving Repr, DecidableEq

/-- The numeric-field conversion of `parse_modal_submission` (lines 249-255):
`int(value) if value and value.strip() else None`. A missing or blank value
yields `None`; a non-blank non-numeric value raises `ValueError` (the call
is not wrapped in try/except). -/
def parseNumField : Option String → Except String (Option Int)
  | some v =>
    if strTruthy v && strTruthy (pyStrip v) then
      match parseIntPy v with
      | some n => Except.ok (some n)
      | none => Except.error "ValueError: invalid literal for int"
    else
      Except.ok none
  | none => Except.ok none

/-- `parse_modal_submission` (lines 221-257): hypothesis is passed through
as-is, the optional text fields get `or None`, and the two numeric fields go
through the lenient-looking but raising `int(...)` conversion. -/
def parse_modal_submission (st : ModalState) : Except String ParsedForm := do
  let list_size ← parseNumField st.list_size
  let meetings_booked ← parseNumField st.meetings_booked
  Except.ok
    { hypothesis := st.hypothesis,
      audience := pyOrNone st.audience,
      channels := pyOrNone st.channels,
      description := pyOrNone st.description,
      list_size := list_size,
      meetings_booked := meetings_booked }

/-! ## `app/crud.py`, `app/schemas.py`, `app/models.py` — the DB-backed CRUD -/

/-- A row of the `gtm_activities` table as a Python object. Dates are kept
as ISO strings here; `hypothesis` is `Option String` because `setattr` can
place `None` into the attribute even though the column is `nullable=False`
(the column constraint lives in the database collaborator). -/
structure DBActivity where
  id : Int
  hypothesis : Option String := none
  audience : Option String := none
  channels : Option String := none
  description : Option String := none
  list_size : Option Int := none
  meetings_booked : Option Int := none
  start_date : Option String := none
  end_date : Option String := none
  est_weekly_hrs : Option Float := none
  created_at : String := ""
  updated_at : String := ""
deriving Repr

/-- The pydantic `ActivityUpdate` schema: all fields optional with default
`None`. The outer `Option` records whether the field was explicitly set
(pydantic's `exclude_unset` distinction); the inner value is the field's
value, which can itself be `None` even when explicitly set. -/
structure ActivityUpdateModel where
  hypothesis : Option (Option String) := none
  audience : Option (Option String) := none
  channels : Option (Option String) := none
  description : Option (Option String) := none
  list_size : Option (Option Int) := none
  meetings_booked : Option (Option Int) := none
  start_date : Option (Option String) := none
  end_date : Option (Option String) := none
  est_weekly_hrs : Option (Option Float) := none

/-- Effect of `model_dump(exclude_unset=partial)` followed by the `setattr`
loop on one field: with `partial=True` only explicitly set fields are
written (an unset field keeps the current value); with `partial=False`
every field is written, unset ones with their default `None`. -/
def effField {α : Type} (patch : Bool) (cur : Option α) (f : Option (Option α)) : Option α :=
  if patch then
    match f with
    | some v => v
    | none => cur
  else
    f.getD none

/-- Whether any field of the schema value was explicitly set — with
`exclude_unset=True` this is exactly when `model_dump` is non-empty. -/
def ActivityUpdateModel.anySet (u : ActivityUpdateModel) : Bool :=
  u.hypothesis.isSome || u.audience.isSome || u.channels.isSome
  || u.description.isSome || u.list_size.isSome || u.meetings_booked.isSome
  || u.start_date.isSome || u.end_date.isSome || u.est_weekly_hrs.isSome

/-- `crud.update_activity` (lines 45-67): `None` when the id is not found;
otherwise apply the dumped fields and commit. The `updated_at` column of
`app/models.py` line 22 refreshes via `onupdate=func.now()`, which fires
only within an UPDATE statement the commit actually emits: the `setattr`
loop marks the session dirty exactly when the dumped dict has at least one
entry (every entry with `partial=False`, only explicitly set fields with
`partial=True`), so an empty dump emits no UPDATE and leaves `updated_at`
unchanged. -/
def update_activity (db : List DBActivity) (activity_id : Int)
    (activity : ActivityUpdateModel) (patch : Bool) (now : String) :
    Option DBActivity × List DBActivity :=
  match db.find? (fun r => r.id == activity_id) with
  | none => (none, db)
  | some r =>
    let emitsUpdate : Bool := if patch then activity.anySet else true
    let r1 : DBActivity :=
      { id := r.id,
        hypothesis := effField patch r.hypothesis activity.hypothesis,
        audience := effField patch r.audience activity.audience,
        channels := effField patch r.channels activity.channels,
        description := effField patch r.description activity.description,
        list_size := effField patch r.list_size activity.list_size,
        meetings_booked := effField patch r.meetings_booked activity.meetings_booked,
        start_date := effField patch r.start_date activity.start_date,
        end_date := effField patch r.end_date activity.end_date,
        est_weekly_hrs := effField patch r.est_weekly_hrs activity.est_weekly_hrs,
        created_at := r.created_at,
        updated_at := if emitsUpdate then now else r.updated_at }
    (some r1, db.map (fun x => if x.id == activity_id then r1 else x))

/-- `ActivityUpdate(**form_data)` in the `view_submission` branch of
`api/index.py` (line 357): the six keys of the parsed form dict are all
passed explicitly, so all six fields count as set (even when their value is
`None`); the remaining fields stay unset. -/
def formToActivityUpdate (f : ParsedForm) : ActivityUpdateModel :=
  { hypothesis := some f.hypothesis,
    audience := some f.audience,
    channels := some f.channels,
    description := some f.description,
    list_size := some f.list_size,
    meetings_booked := some f.meetings_booked }

/-! ## `app/import_data.py` and `app/utils.py` — the two CSV importers -/

/-- A `csv.DictReader` row: column name to cell text. -/
def CsvRow : Type := List (String × String)

/-- Python `row.get(key, default)`. -/
def rowGetD (row : CsvRow) (key dflt : String) : String :=
  (List.lookup key row).getD dflt

/-- Python `row.get(key)` (default `None`). -/
def rowGet (row : CsvRow) (key : String) : Option String :=
  List.lookup key row

/-- `parse_date` of `app/import_data.py` (lines 12-32): blank input gives
`None`; otherwise the three-format `strptime`/`strftime` loop — the library
primitive, passed as `strp` — and on total failure the stripped raw string
is kept (lenient policy). -/
def parse_date_idata (strp : String → Option String) (date_str : String) : Option String :=
  if !(strTruthy date_str) || !(strTruthy (pyStrip date_str)) then none
  else
    let t := pyStrip date_str
    match strp t with
    | some formatted => some formatted
    | none => some t

/-- The numeric-cell parse of `import_csv_data` (lines 124-136):
`int(...)` guarded by truthiness, with `ValueError` caught and ignored. -/
def importNumCell (row : CsvRow) (key : String) : Option Int :=
  match rowGet row key with
  | some v => if strTruthy v && strTruthy (pyStrip v) then parseIntPy (pyStrip v) else none
  | none => none

/-- The per-row description assembly of `import_csv_data` (lines 114-121):
the truthy CSV description cell (stripped) and the truthy companion
markdown content, joined by a blank line, else `None`. -/
def importDescription (row : CsvRow) (additional_content : Option String) : Option String :=
  let description_parts :=
    (match rowGet row "Description/Activities" with
     | some d => if d ≠ "" then [pyStrip d] else []
     | none => [])
    ++ (match additional_content with
        | some c => if c ≠ "" then [c] else []
        | none => [])
  if description_parts.isEmpty then none
  else some (String.intercalate "\n\n" description_parts)

/-- `import_csv_data` of `app/import_data.py` (lines 92-153): for each row,
skip it when the `Hypothesis` cell strips to empty, else look up the
companion markdown content (`find_md_file_for_hypothesis` plus
`read_md_content`, a filesystem collaborator passed as `mdContent`), build
the creation fields and create the activity; the returned count is the
number of created records. No row can abort the loop: every fallible parse
is guarded or caught. -/
def import_csv_data (mdContent : String → Option String)
    (strp : String → Option String) (now : String) :
    List CsvRow → InMemoryStorage → Nat × InMemoryStorage
  | [], s => (0, s)
  | row :: rest, s =>
    let hypothesis := pyStrip (rowGetD row "Hypothesis" "")
    if hypothesis = "" then
      import_csv_data mdContent strp now rest s
    else
      let additional_content := mdContent hypothesis
      let description := importDescription row additional_content
      let list_size := importNumCell row "List size"
      let meetings_booked := importNumCell row "Meetings booked"
      let s1 := (s.create now hypothesis
        (strOrNone (pyStrip (rowGetD row "Audience" "")))
        (strOrNone (pyStrip (rowGetD row "Channels" "")))
        description list_size meetings_booked
        (parse_date_idata strp (rowGetD row "T1 Date or Start" ""))
        (parse_date_idata strp (rowGetD row "End Date" ""))).2
      let r := import_csv_data mdContent strp now rest s1
      (r.1 + 1, r.2)

/-- `parse_date` of `app/utils.py` (lines 7-34): blank or `None` gives
`None`, then a seven-format `strptime` loop (the library primitive `strp`),
and on total failure `None` (drop policy — unlike the importer above). -/
def parse_date_utils (strp : String → Option String) (date_str : Option String) :
    Option String :=
  match date_str with
  | none => none
  | some v =>
    if v = "" || pyStrip v = "" then none
    else strp (pyStrip v)

/-- `parse_int` of `app/utils.py` (lines 36-45): `None`/blank gives `None`,
and a failed `int(...)` is caught and gives `None`. -/
def parse_int (value : Option String) : Option Int :=
  match value with
  | none => none
  | some v => if v = "" || pyStrip v = "" then none else parseIntPy (pyStrip v)

/-- `parse_float` of `app/utils.py` (lines 47-56): same shape with the
`float(...)` library primitive passed as `pyFloat`. -/
def parse_float (pyFloat : String → Option Float) (value : Option String) :
    Option Float :=
  match value with
  | none => none
  | some v => if v = "" || pyStrip v = "" then none else pyFloat (pyStrip v)

/-- Python `a or b` on `Optional[str]` operands (`row.get(x) or row.get(y)`). -/
def pyOrOptStr (a b : Option String) : Option String :=
  match a with
  | some s => if s = "" then b else some s
  | none => b

/-- The constructor arguments of the `GTMActivity(...)` call in
`import_csv_to_db` (lines 71-81); ids and timestamps are assigned by the
database collaborator on commit and are not part of the constructed value. -/
structure NewDBActivity where
  hypothesis : String
  audience : Option String
  channels : Option String
  description : Option String
  list_size : Option Int
  meetings_booked : Option Int
  start_date : Option String
  end_date : Option String
  est_weekly_hrs : Option Float

/-- The row-to-record mapping of `import_csv_to_db`, with the alias chains
of lines 72-80 (`or`-chains over the alternative column spellings). -/
def mkImportedActivity (strp : String → Option String)
    (pyFloat : String → Option Float) (row : CsvRow) : NewDBActivity :=
  { hypothesis := pyOrStr (pyStrip (rowGetD row "Hypothesis" "")) (pyStrip (rowGetD row "hypothesis" "")),
    audience := pyOrNone (some (pyOrStr (pyStrip (rowGetD row "Audience" ""))
                                        (pyStrip (rowGetD row "audience" "")))),
    channels := pyOrNone (some (pyOrStr (pyStrip (rowGetD row "Channels" ""))
                                        (pyStrip (rowGetD row "channels" "")))),
    description := pyOrNone (some (pyOrStr (pyStrip (rowGetD row "Description/Activities" ""))
                              (pyOrStr (pyStrip (rowGetD row "Description" ""))
                                       (pyStrip (rowGetD row "description" ""))))),
    list_size := parse_int (pyOrOptStr (rowGet row "List size")
                   (pyOrOptStr (rowGet row "List Size") (some (rowGetD row "list_size" "")))),
    meetings_booked := parse_int (pyOrOptStr (rowGet row "Meetings booked")
                   (pyOrOptStr (rowGet row "Meetings Booked") (some (rowGetD row "meetings_booked" "")))),
    start_date := parse_date_utils strp (pyOrOptStr (rowGet row "T1 Date or Start")
                   (pyOrOptStr (rowGet row "Start Date") (some (rowGetD row "start_date" "")))),
    end_date := parse_date_utils strp (pyOrOptStr (rowGet row "End Date")
                   (some (rowGetD row "end_date" ""))),
    est_weekly_hrs := parse_float pyFloat (pyOrOptStr (rowGet row "Est weekly hrs")
                   (pyOrOptStr (rowGet row "Est Weekly Hrs") (some (rowGetD row "est_weekly_hrs" "")))) }

/-- `import_csv_to_db` of `app/utils.py` (lines 58-88): every row is mapped
to a record, added to the session and counted — there is no skip for an
empty hypothesis and no per-row failure handling; the commit happens once
at the end. -/
def import_csv_to_db (strp : String → Option String)
    (pyFloat : String → Option Float) :
    List CsvRow → List NewDBActivity → Nat × List NewDBActivity
  | [], db => (0, db)
  | row :: rest, db =>
    let activity := mkImportedActivity strp pyFloat row
    let r := import_csv_to_db strp pyFloat rest (db ++ [activity])
    (r.1 + 1, r.2)

/-! ## Helper lemmas -/

/-- Neither create nor delete ever decreases `next_id`, and delete leaves it
unchanged. -/
theorem next_id_applyOp (s : InMemoryStorage) (op : StoreOp) :
    s.next_id ≤ (applyOp s op).next_id := by
  cases op with
  | create now h au ch d ls mb sd ed ewh =>
    simp [applyOp, InMemoryStorage.create]
  | delete i =>
    simp only [applyOp, InMemoryStorage.delete]
    split <;> simp

/-- Delete keeps `next_id` exactly. -/
theorem next_id_delete (s : InMemoryStorage) (i : Int) :
    (s.delete i).2.next_id = s.next_id := by
  simp only [InMemoryStorage.delete]
  split <;> rfl

/-- Every id in the create history of a run from `s` is at least `s.next_id`,
and the history is strictly increasing. -/
theorem createdIds_ge_and_sorted (ops : List StoreOp) :
    ∀ s : InMemoryStorage,
      (∀ i ∈ createdIds s ops, s.next_id ≤ i)
      ∧ (createdIds s ops).Pairwise (· < ·) := by
  induction ops with
  | nil => intro s; simp [createdIds]
  | cons op rest ih =>
    intro s
    cases op with
    | create now h au ch d ls mb sd ed ewh =>
      have hnext : (applyOp s (.create now h au ch d ls mb sd ed ewh)).next_id
          = s.next_id + 1 := rfl
      obtain ⟨ihge, ihsorted⟩ := ih (applyOp s (.create now h au ch d ls mb sd ed ewh))
      rw [hnext] at ihge
      constructor
      · intro i hi
        simp only [createdIds, List.mem_cons] at hi
        rcases hi with hi | hi
        · simp [hi, InMemoryStorage.create]
        · exact le_trans (by omega) (ihge i hi)
      · simp only [createdIds]
        refine List.Pairwise.cons ?_ ihsorted
        intro i hi
        have := ihge i hi
        simp only [InMemoryStorage.create]
        omega
    | delete j =>
      have hnext : (applyOp s (.delete j)).next_id = s.next_id := next_id_delete s j
      obtain ⟨ihge, ihsorted⟩ := ih (applyOp s (.delete j))
      rw [hnext] at ihge
      exact ⟨fun i hi => ihge i (by simpa [createdIds] using hi),
             by simpa [createdIds] using ihsorted⟩

/-- Applying a kwargs entry whose value is Python `None` leaves an optional
attribute unchanged. -/
theorem applyKwO_none_value {α : Type} (cur : Option α) :
    applyKwO cur (some none) = cur := rfl

/-- Applying any kwargs entry never turns a non-null optional attribute
into null. -/
theorem applyKwO_isSome {α : Type} (cur : Option α) (f : Option (Option α)) :
    cur.isSome = true → (applyKwO cur f).isSome = true := by
  intro h
  match f with
  | some (some v) => rfl
  | some none => exact h
  | none => exact h

/-! ## Claim theorems -/

/-- C8: over any sequence of create and delete operations run from a fresh
in-memory store, the ids returned by the successive creates are strictly
increasing in chronological order — every create's id is strictly greater
than every previously assigned id, deletes never free an id for reuse. -/
theorem create_ids_strictly_increasing (ops : List StoreOp) :
    (createdIds initStorage ops).Pairwise (· < ·) :=
  (createdIds_ge_and_sorted ops initStorage).2

/-- C10: for every stored activity and kwargs dict, `InMemoryStorage.update`
leaves any attribute unchanged when the supplied value is `None`, never
turns a non-null optional field back into null, and is unaffected by dict
keys that are not attribute names of the dataclass. -/
theorem update_none_values_unknown_keys_ignored
    (s : InMemoryStorage) (i : Int) (kw : UpdateKwargs) (now : String)
    (a a' : GTMActivity)
    (hfound : s.activities.lookup i = some a)
    (hres : (s.update i kw now).1 = some a') :
    ((kw.id = some none → a'.id = a.id)
     ∧ (kw.hypothesis = some none → a'.hypothesis = a.hypothesis)
     ∧ (kw.audience = some none → a'.audience = a.audience)
     ∧ (kw.channels = some none → a'.channels = a.channels)
     ∧ (kw.description = some none → a'.description = a.description)
     ∧ (kw.list_size = some none → a'.list_size = a.list_size)
     ∧ (kw.meetings_booked = some none → a'.meetings_booked = a.meetings_booked)
     ∧ (kw.start_date = some none → a'.start_date = a.start_date)
     ∧ (kw.end_date = some none → a'.end_date = a.end_date)
     ∧ (kw.est_weekly_hrs = some none → a'.est_weekly_hrs = a.est_weekly_hrs)
     ∧ (kw.created_at = some none → a'.created_at = a.created_at))
    ∧ ((a.audience.isSome = true → a'.audience.isSome = true)
     ∧ (a.channels.isSome = true → a'.channels.isSome = true)
     ∧ (a.description.isSome = true → a'.description.isSome = true)
     ∧ (a.list_size.isSome = true → a'.list_size.isSome = true)
     ∧ (a.meetings_booked.isSome = true → a'.meetings_booked.isSome = true)
     ∧ (a.start_date.isSome = true → a'.start_date.isSome = true)
     ∧ (a.end_date.isSome = true → a'.end_date.isSome = true)
     ∧ (a.est_weekly_hrs.isSome = true → a'.est_weekly_hrs.isSome = true))
    ∧ (∀ ks : List String, s.update i { kw with unknownKeys := ks } now = s.update i kw now) := by
  simp only [InMemoryStorage.update, hfound] at hres
  have ha' : a' =
      { id := applyKwV a.id kw.id,
        hypothesis := applyKwV a.hypothesis kw.hypothesis,
        audience := applyKwO a.audience kw.audience,
        channels := applyKwO a.channels kw.channels,
        description := applyKwO a.description kw.description,
        list_size := applyKwO a.list_size kw.list_size,
        meetings_booked := applyKwO a.meetings_booked kw.meetings_booked,
        start_date := applyKwO a.start_date kw.start_date,
        end_date := applyKwO a.end_date kw.end_date,
        est_weekly_hrs := applyKwO a.est_weekly_hrs kw.est_weekly_hrs,
        created_at := applyKwV a.created_at kw.created_at,
        updated_at := now } := by
    exact (Option.some_inj.mp hres).symm
  subst ha'
  refine ⟨⟨?_, ?_, ?_, ?_, ?_, ?_, ?_, ?_, ?_, ?_, ?_⟩, ⟨?_, ?_, ?_, ?_, ?_, ?_, ?_, ?_⟩, ?_⟩
  all_goals first
    | (intro ks; rfl)
    | (intro h; exact applyKwO_isSome _ _ h)
    | (intro h; simp [h, applyKwV, applyKwO])

/-- A sample stored activity used by the closed witness instances. -/
def exActivity : GTMActivity :=
  { id := 1, hypothesis := "Test cold email", audience := some "Founders",
    channels := some "Email", created_at := "t0", updated_at := "t0" }

/-- A one-record sample store (the state after one create on a fresh store). -/
def exStore : InMemoryStorage :=
  { activities := [(1, exActivity)], next_id := 2 }

/-- A sample kwargs dict: `audience=None` plus a key that is not an
attribute of the dataclass. -/
def exKw : UpdateKwargs := { audience := some none, unknownKeys := ["bogus"] }

/-- Witness for C10 at a concrete store: the record is found, the update
succeeds, and an `audience=None` entry plus an unknown key leave the
non-null audience unchanged. -/
theorem update_none_values_unknown_keys_ignored_witness :
    exStore.activities.lookup 1 = some exActivity
    ∧ (exStore.update 1 exKw "t1").1 = some { exActivity with updated_at := "t1" }
    ∧ ({ exActivity with updated_at := "t1" } : GTMActivity).audience = exActivity.audience
    ∧ ({ exActivity with updated_at := "t1" } : GTMActivity).audience.isSome = true := by
  have h := update_none_values_unknown_keys_ignored exStore 1 exKw "t1"
      exActivity { exActivity with updated_at := "t1" } rfl rfl
  exact ⟨rfl, rfl, h.1.2.2.1 rfl, h.2.1.1 rfl⟩

/-- C3: with a non-empty secret, `verify_slack_request` rejects any request
whose (well-formed) timestamp is more than 5 minutes from the current time,
accepts a fresh request whose signature is exactly `v0=` followed by the
HMAC-SHA256 hex digest of `v0:<timestamp>:<body>` under the secret, and
rejects any request whose signature differs from that digest, stale or
fresh; with no secret configured every request is accepted. -/
theorem verify_slack_request_spec (mac : String → String → String)
    (secret body timestamp signature : String) (current_time ts : Int) :
    (secret ≠ "" → parseIntPy timestamp = some ts →
       (current_time - ts).natAbs > 300 →
       verify_slack_request mac secret current_time body timestamp signature
         = Except.ok false)
    ∧ (secret ≠ "" → parseIntPy timestamp = some ts →
       (current_time - ts).natAbs ≤ 300 →
       signature = "v0=" ++ mac secret ("v0:" ++ timestamp ++ ":" ++ body) →
       verify_slack_request mac secret current_time body timestamp signature
         = Except.ok true)
    ∧ (secret ≠ "" → parseIntPy timestamp = some ts →
       signature ≠ "v0=" ++ mac secret ("v0:" ++ timestamp ++ ":" ++ body) →
       verify_slack_request mac secret current_time body timestamp signature
         = Except.ok false)
    ∧ (secret = "" →
       verify_slack_request mac secret current_time body timestamp signature
         = Except.ok true) := by
  refine ⟨?_, ?_, ?_, ?_⟩
  · intro hs hts hstale
    simp only [verify_slack_request, hs, if_neg hs, hts]
    simp [hstale]
  · intro hs hts hfresh hsig
    simp only [verify_slack_request, if_neg hs, hts]
    have : ¬ ((current_time - ts).natAbs > 60 * 5) := by omega
    simp [this, hsig]
  · intro hs hts hsig
    simp only [verify_slack_request, if_neg hs, hts]
    by_cases hstale : (current_time - ts).natAbs > 60 * 5
    · simp [hstale]
    · simp only [hstale, if_neg hstale]
      simp [beq_iff_eq]
      exact fun h => absurd h.symm hsig
  · intro hs
    simp [verify_slack_request, hs]

/-- Witness for C3: a concrete digest function, a fresh correctly signed
request accepted, the same request six minutes later rejected, and a wrong
signature rejected. -/
theorem verify_slack_request_spec_witness :
    verify_slack_request (fun _ _ => "d1g3st") "sec" 60 "body" "0" "v0=d1g3st"
      = Except.ok true
    ∧ verify_slack_request (fun _ _ => "d1g3st") "sec" 360 "body" "0" "v0=d1g3st"
      = Except.ok false
    ∧ verify_slack_request (fun _ _ => "d1g3st") "sec" 60 "body" "0" "v0=wrong"
      = Except.ok false := by
  refine ⟨?_, ?_, ?_⟩
  · exact (verify_slack_request_spec (fun _ _ => "d1g3st") "sec" "body" "0"
      "v0=d1g3st" 60 0).2.1 (by decide) (by decide) (by decide) rfl
  · exact (verify_slack_request_spec (fun _ _ => "d1g3st") "sec" "body" "0"
      "v0=d1g3st" 360 0).1 (by decide) (by decide) (by decide)
  · exact (verify_slack_request_spec (fun _ _ => "d1g3st") "sec" "body" "0"
      "v0=wrong" 60 0).2.2.1 (by decide) (by decide) (by decide)

/-- C9 (amended): in `parse_modal_submission` a missing or blank numeric
text field becomes `None` — the key stays present in the result dict, so
after `ActivityUpdate(**form_data)` the field counts as explicitly set to
null and a partial update writes that null into the stored record; a
non-blank non-numeric value raises `ValueError` out of the parser; a
numeric value is parsed. -/
theorem modal_numeric_fields_lenient_only_for_blank (st : ModalState) (v : String) :
    (parseNumField none = Except.ok none)
    ∧ (pyStrip v = "" → parseNumField (some v) = Except.ok none)
    ∧ (pyStrip v ≠ "" → parseIntPy v = none →
        parseNumField (some v) = Except.error "ValueError: invalid literal for int")
    ∧ (∀ n : Int, pyStrip v ≠ "" → parseIntPy v = some n →
        parseNumField (some v) = Except.ok (some n))
    ∧ (∀ f : ParsedForm, parse_modal_submission st = Except.ok f →
        (formToActivityUpdate f).list_size = some f.list_size
        ∧ (formToActivityUpdate f).meetings_booked = some f.meetings_booked)
    ∧ (∀ (db : List DBActivity) (i : Int) (f : ParsedForm) (now : String)
         (r r' : DBActivity),
        db.find? (fun x => x.id == i) = some r →
        (update_activity db i (formToActivityUpdate f) true now).1 = some r' →
        r'.list_size = f.list_size ∧ r'.meetings_booked = f.meetings_booked) := by
  have hv : pyStrip v ≠ "" → v ≠ "" := fun h hveq => h (by rw [hveq]; rfl)
  refine ⟨rfl, ?_, ?_, ?_, ?_, ?_⟩
  · intro h
    simp [parseNumField, strTruthy, h]
  · intro h hparse
    simp [parseNumField, strTruthy, hv h, h, hparse]
  · intro n h hparse
    simp [parseNumField, strTruthy, hv h, h, hparse]
  · intro f _
    exact ⟨rfl, rfl⟩
  · intro db i f now r r' hfound hres
    simp only [update_activity, hfound] at hres
    have hr' := (Option.some_inj.mp hres).symm
    subst hr'
    exact ⟨rfl, rfl⟩

/-- The dict produced by `parse_modal_submission` for an all-empty modal
state: every key present, every value `None`. -/
def exBlankForm : ParsedForm :=
  { hypothesis := none, audience := none, channels := none,
    description := none, list_size := none, meetings_booked := none }

/-- A stored DB row with a non-null `list_size`. -/
def exDBRow5 : DBActivity :=
  { id := 1, hypothesis := some "Test cold email", list_size := some 5,
    created_at := "t0", updated_at := "t0" }

/-- Counterexample to C9 as stated: a whitespace-only `list_size` is not
omitted from the update request — it is parsed to `None`, the key stays in
the form dict, and the resulting partial update resets a stored `5` to
null; and a non-numeric value makes `int(...)` raise instead of being
handled leniently. -/
theorem modal_blank_resets_field_nonnumeric_raises :
    parse_modal_submission { list_size := some "abc" }
      = Except.error "ValueError: invalid literal for int"
    ∧ parse_modal_submission { list_size := some " " } = Except.ok exBlankForm
    ∧ (formToActivityUpdate exBlankForm).list_size = some none
    ∧ exDBRow5.list_size = some 5
    ∧ ((update_activity [exDBRow5] 1 (formToActivityUpdate exBlankForm) true "t1").1.map
        (fun r => r.list_size)) = some none :=
  ⟨rfl, rfl, rfl, rfl, rfl⟩

/-- Witness for C9 (amended) on concrete values: blank gives `ok none`,
`abc` raises, `12` parses. -/
theorem modal_numeric_fields_lenient_only_for_blank_witness :
    pyStrip " " = ""
    ∧ parseNumField (some " ") = Except.ok none
    ∧ pyStrip "abc" ≠ "" ∧ parseIntPy "abc" = none
    ∧ parseNumField (some "abc") = Except.error "ValueError: invalid literal for int"
    ∧ parseIntPy "12" = some 12
    ∧ parseNumField (some "12") = Except.ok (some 12) := by
  refine ⟨by decide, ?_, by decide, by decide, ?_, by decide, ?_⟩
  · exact (modal_numeric_fields_lenient_only_for_blank {} " ").2.1 (by decide)
  · exact (modal_numeric_fields_lenient_only_for_blank {} "abc").2.2.1
      (by decide) (by decide)
  · exact (modal_numeric_fields_lenient_only_for_blank {} "12").2.2.2.1 12
      (by decide) (by decide)

/-- Count lemma for `import_csv_data`: the returned count is the number of
rows whose `Hypothesis` cell is non-blank after stripping. -/
theorem import_csv_data_count (mdContent strp : String → Option String)
    (now : String) (rows : List CsvRow) :
    ∀ s : InMemoryStorage,
      (import_csv_data mdContent strp now rows s).1
        = rows.countP (fun row => !(pyStrip (rowGetD row "Hypothesis" "") == "")) := by
  induction rows with
  | nil => intro s; simp [import_csv_data]
  | cons row rest ih =>
    intro s
    by_cases h : pyStrip (rowGetD row "Hypothesis" "") = ""
    · simp [import_csv_data, h, ih, List.countP_cons]
    · simp [import_csv_data, h, ih, List.countP_cons]

/-- Length lemma for `import_csv_data`: exactly `count` records are added
to the store. -/
theorem import_csv_data_length (mdContent strp : String → Option String)
    (now : String) (rows : List CsvRow) :
    ∀ s : InMemoryStorage,
      (import_csv_data mdContent strp now rows s).2.activities.length
        = s.activities.length + (import_csv_data mdContent strp now rows s).1 := by
  induction rows with
  | nil => intro s; simp [import_csv_data]
  | cons row rest ih =>
    intro s
    by_cases h : pyStrip (rowGetD row "Hypothesis" "") = ""
    · simp [import_csv_data, h, ih]
    · simp [import_csv_data, h, ih, InMemoryStorage.create]
      try omega

/-- Count lemma for `import_csv_to_db`: every row is counted. -/
theorem import_csv_to_db_count (strp : String → Option String)
    (pyFloat : String → Option Float) (rows : List CsvRow) :
    ∀ db : List NewDBActivity,
      (import_csv_to_db strp pyFloat rows db).1 = rows.length := by
  induction rows with
  | nil => intro db; simp [import_csv_to_db]
  | cons row rest ih => intro db; simp [import_csv_to_db, ih]

/-- Length lemma for `import_csv_to_db`: every row is persisted. -/
theorem import_csv_to_db_length (strp : String → Option String)
    (pyFloat : String → Option Float) (rows : List CsvRow) :
    ∀ db : List NewDBActivity,
      (import_csv_to_db strp pyFloat rows db).2.length = db.length + rows.length := by
  induction rows with
  | nil => intro db; simp [import_csv_to_db]
  | cons row rest ih =>
    intro db
    simp [import_csv_to_db, ih]
    omega

/-- C5 (amended): `import_csv_data` creates and counts exactly the rows
whose required `Hypothesis` field is non-blank (so N rows with K blank give
N−K), adding exactly that many records to the store, and processes every
row — no row aborts the remainder. The sibling importer `import_csv_to_db`
of `app/utils.py`, by contrast, persists and counts all N rows, including
those with a blank hypothesis. -/
theorem csv_import_counts (mdContent strp strp7 : String → Option String)
    (pyFloat : String → Option Float) (now : String) (rows : List CsvRow)
    (s : InMemoryStorage) (db : List NewDBActivity) :
    (import_csv_data mdContent strp now rows s).1
      = rows.countP (fun row => !(pyStrip (rowGetD row "Hypothesis" "") == ""))
    ∧ (import_csv_data mdContent strp now rows s).2.activities.length
      = s.activities.length + (import_csv_data mdContent strp now rows s).1
    ∧ (import_csv_to_db strp7 pyFloat rows db).1 = rows.length
    ∧ (import_csv_to_db strp7 pyFloat rows db).2.length = db.length + rows.length :=
  ⟨import_csv_data_count mdContent strp now rows s,
   import_csv_data_length mdContent strp now rows s,
   import_csv_to_db_count strp7 pyFloat rows db,
   import_csv_to_db_length strp7 pyFloat rows db⟩

/-- A CSV row whose `Hypothesis` cell is whitespace only. -/
def exBlankRow : CsvRow := [("Hypothesis", "  ")]

/-- Counterexample to C5 as stated: on a one-row source whose single row has
a blank hypothesis (N = 1, K = 1), `import_csv_to_db` returns 1 and persists
one record, not N − K = 0. -/
theorem csv_import_to_db_keeps_blank_hypothesis_row :
    pyStrip (rowGetD exBlankRow "Hypothesis" "") = ""
    ∧ (import_csv_to_db (fun _ => none) (fun _ => none) [exBlankRow] []).1 = 1
    ∧ (import_csv_to_db (fun _ => none) (fun _ => none) [exBlankRow] []).2.length = 1 :=
  ⟨rfl, rfl, rfl⟩

/-- A string contains any needle that some suffix part contains. -/
theorem strContains_append_right (a b n : String) (h : strContains b n = true) :
    strContains (a ++ b) n = true := by
  apply decide_eq_true
  obtain ⟨u, t, hut⟩ := of_decide_eq_true h
  exact ⟨a.data ++ u, t, by
    simp only [String.data_append, ← hut, List.append_assoc]⟩

/-- A concatenation contains its middle piece. -/
theorem strContains_middle (x y z : String) : strContains (x ++ y ++ z) y = true := by
  apply decide_eq_true
  exact ⟨x.data, z.data, by simp [String.data_append]⟩

/-- Branch analysis of `viewCore`. -/
theorem viewCore_branches (s : InMemoryStorage) (idStr : String) (pub : Bool) :
    (idStr = "" → viewCore s idStr pub
      = { response_type := "ephemeral",
          text := "❌ Please provide an activity ID. Example: `/gtm-view 1`\nTip: Add 'public' to share with channel: `/gtm-view 1 public`" })
    ∧ (idStr ≠ "" → parseIntPy idStr = none → viewCore s idStr pub
      = { response_type := "ephemeral",
          text := "❌ Invalid activity ID: `" ++ idStr ++ "`. Please use a number." })
    ∧ (∀ n : Int, idStr ≠ "" → parseIntPy idStr = some n → s.get n = none →
       viewCore s idStr pub
         = { response_type := "ephemeral",
             text := "❌ Activity #" ++ toString n ++ " not found." })
    ∧ (∀ (n : Int) (a : GTMActivity), idStr ≠ "" → parseIntPy idStr = some n →
       s.get n = some a → viewCore s idStr pub = viewDetail a pub) := by
  refine ⟨?_, ?_, ?_, ?_⟩
  · intro h; simp [viewCore, h]
  · intro h hp; simp [viewCore, h, hp]
  · intro n h hp hg; simp [viewCore, h, hp, hg]
  · intro n a h hp hg; simp [viewCore, h, hp, hg]

/-- An empty argument string never parses as an id. -/
theorem parseIntPy_empty : parseIntPy "" = none := rfl

/-- C6: `handle_gtm_view` is total over arbitrary input strings — every
branch yields a structured response that is ephemeral or in-channel; when
the (suffix-stripped) argument parses to an id that is not in the store,
the response is ephemeral and its text contains both `not found` and the
requested id; empty and non-numeric arguments also yield descriptive
ephemeral responses. -/
theorem view_not_found_ephemeral_total (s : InMemoryStorage) (idStr : String) :
    ((handle_gtm_view s idStr false).response_type = "ephemeral"
      ∨ (handle_gtm_view s idStr false).response_type = "in_channel")
    ∧ (∀ n : Int, parseIntPy (viewArg idStr false).1 = some n → s.get n = none →
        (handle_gtm_view s idStr false).response_type = "ephemeral"
        ∧ strContains (handle_gtm_view s idStr false).text "not found" = true
        ∧ strContains (handle_gtm_view s idStr false).text (toString n) = true)
    ∧ ((viewArg idStr false).1 = "" →
        (handle_gtm_view s idStr false).response_type = "ephemeral"
        ∧ strContains (handle_gtm_view s idStr false).text "Please provide an activity ID" = true)
    ∧ ((viewArg idStr false).1 ≠ "" → parseIntPy (viewArg idStr false).1 = none →
        (handle_gtm_view s idStr false).response_type = "ephemeral"
        ∧ strContains (handle_gtm_view s idStr false).text "Invalid activity ID" = true) := by
  have hv : handle_gtm_view s idStr false
      = viewCore s (viewArg idStr false).1 (viewArg idStr false).2 := rfl
  have hb := viewCore_branches s (viewArg idStr false).1 (viewArg idStr false).2
  refine ⟨?_, ?_, ?_, ?_⟩
  · by_cases he : (viewArg idStr false).1 = ""
    · left; rw [hv, hb.1 he]
    · cases hp : parseIntPy (viewArg idStr false).1 with
      | none => left; rw [hv, hb.2.1 he hp]
      | some n =>
        cases hg : s.get n with
        | none => left; rw [hv, hb.2.2.1 n he hp hg]
        | some a =>
          rw [hv, hb.2.2.2 n a he hp hg]
          cases hpub : (viewArg idStr false).2 with
          | false => left; simp [viewDetail, hpub]
          | true => right; simp [viewDetail, hpub]
  · intro n hp hg
    have he : (viewArg idStr false).1 ≠ "" := by
      intro he
      rw [he, parseIntPy_empty] at hp
      exact Option.noConfusion hp
    rw [hv, hb.2.2.1 n he hp hg]
    refine ⟨rfl, ?_, ?_⟩
    · exact strContains_append_right ("❌ Activity #" ++ toString n) " not found."
        "not found" (by decide)
    · exact strContains_middle "❌ Activity #" (toString n) " not found."
  · intro he
    rw [hv, hb.1 he]
    exact ⟨rfl, by decide⟩
  · intro he hp
    rw [hv, hb.2.1 he hp]
    refine ⟨rfl, ?_⟩
    exact strContains_append_right "❌ " ("Invalid activity ID: `" ++ (viewArg idStr false).1 ++ "`. Please use a number.")
      "Invalid activity ID" (strContains_append_right "" ("Invalid activity ID: `" ++ (viewArg idStr false).1 ++ "`. Please use a number.") "Invalid activity ID" (by
        exact strContains_middle "" "Invalid activity ID" (": `" ++ (viewArg idStr false).1 ++ "`. Please use a number.")))

/-- C7 (amended): the argument `public email` turns on the broadcast flag
and strips the keyword, leaving the filter `email` — the handler behaves
exactly as if called with filter `email` and `public=True`. The response
visibility is `in_channel` only when at least one activity matches the
filter; when nothing matches, the handler returns the ephemeral no-results
message instead. Without the `public` keyword the response is always
ephemeral. -/
theorem list_public_email_broadcast_iff_results (s : InMemoryStorage) :
    handle_gtm_list s (some "public email") false = handle_gtm_list s (some "email") true
    ∧ ((s.list_all 10 (some "email")).isEmpty = false →
        (handle_gtm_list s (some "public email") false).response_type = "in_channel")
    ∧ ((s.list_all 10 (some "email")).isEmpty = true →
        handle_gtm_list s (some "public email") false
          = { response_type := "ephemeral",
              text := "📭 No activities found matching 'email'." })
    ∧ (handle_gtm_list s (some "email") false).response_type = "ephemeral" := by
  have h1 : handle_gtm_list s (some "public email") false
      = handle_gtm_list s (some "email") true := rfl
  have harg : listArg (some "email") true = (some "email", true) := rfl
  have hargf : listArg (some "email") false = (some "email", false) := rfl
  refine ⟨h1, ?_, ?_, ?_⟩
  · intro h
    rw [h1]
    simp [handle_gtm_list, harg, h]
  · intro h
    rw [h1]
    simp [handle_gtm_list, harg, h]
    rfl
  · by_cases h : (s.list_all 10 (some "email")).isEmpty
    · simp [handle_gtm_list, hargf, h]
    · simp [handle_gtm_list, hargf, h]

/-- Counterexample to C7 as stated: on the empty store, `list public email`
matches nothing and the response is ephemeral, not broadcast. -/
theorem list_public_email_empty_store_ephemeral :
    (handle_gtm_list initStorage (some "public email") false).response_type = "ephemeral"
    ∧ ("ephemeral" : String) ≠ "in_channel" :=
  ⟨rfl, by decide⟩

/-- A store holding one activity that matches the filter `email`. -/
def exEmailStore : InMemoryStorage :=
  (initStorage.create "t0" "Test cold email" (some "Founders") (some "Email")).2

/-- Witness for C7 (amended): with a matching activity in the store, `list
public email` really is broadcast, and without the keyword it is private. -/
theorem list_public_email_broadcast_iff_results_witness :
    (exEmailStore.list_all 10 (some "email")).isEmpty = false
    ∧ (handle_gtm_list exEmailStore (some "public email") false).response_type = "in_channel"
    ∧ (handle_gtm_list exEmailStore (some "email") false).response_type = "ephemeral" := by
  refine ⟨by decide, ?_, ?_⟩
  · exact (list_public_email_broadcast_iff_results exEmailStore).2.1 (by decide)
  · exact (list_public_email_broadcast_iff_results exEmailStore).2.2.2

/-- Splitting a string never yields an empty list of parts. -/
theorem addParts_ne_nil (text : String) : addParts text ≠ [] := by
  simp only [addParts, pySplitPipe, ne_eq, List.map_eq_nil_iff, List.splitOn]
  exact List.splitOnP_ne_nil _ _

/-- C1 (amended): `handle_gtm_add` rejects only a completely empty argument
with the usage hint (persisting nothing); every non-empty argument — even
one whose first pipe field trims to the empty string — persists a record
whose hypothesis is the trimmed first field. Persisted hypotheses can
therefore be empty. -/
theorem add_rejects_only_empty_text (s : InMemoryStorage) (now text : String) :
    (text = "" → handle_gtm_add s now text = (addUsageResponse, s))
    ∧ (text ≠ "" →
        ∃ a : GTMActivity,
          (handle_gtm_add s now text).2.activities
            = s.activities ++ [(s.next_id, a)]
          ∧ a.hypothesis = (addParts text).headD ""
          ∧ a.id = s.next_id) := by
  constructor
  · intro h; subst h; rfl
  · intro h
    have hne := addParts_ne_nil text
    have hlen : ¬ ((addParts text).length < 1) := by
      have := List.length_pos.mpr hne
      omega
    refine ⟨{ id := s.next_id, hypothesis := (addParts text).headD "",
              audience := (addParts text)[1]?, channels := (addParts text)[2]?,
              created_at := now, updated_at := now }, ?_, rfl, rfl⟩
    simp only [handle_gtm_add, if_neg h, if_neg hlen]
    rfl

/-- Counterexample to C1 as stated: the argument `| Startups | Email` has an
empty first field after trimming, yet the handler persists a record — with
an empty hypothesis — and does not return the usage hint. -/
theorem add_persists_empty_hypothesis :
    ((handle_gtm_add initStorage "t0" "| Startups | Email").2.activities.map
        (fun p => (p.1, p.2.hypothesis, p.2.audience, p.2.channels)))
      = [(1, "", some "Startups", some "Email")]
    ∧ (handle_gtm_add initStorage "t0" "| Startups | Email").1 ≠ addUsageResponse :=
  ⟨by decide, by decide⟩

/-- Witness for C1 (amended): the empty argument is rejected without a store
change, and a well-formed argument persists its trimmed first field. -/
theorem add_rejects_only_empty_text_witness :
    handle_gtm_add initStorage "t0" "" = (addUsageResponse, initStorage)
    ∧ ∃ a : GTMActivity,
        (handle_gtm_add initStorage "t0" "Test cold email | Startups | Email").2.activities
          = initStorage.activities ++ [(initStorage.next_id, a)]
        ∧ a.hypothesis = (addParts "Test cold email | Startups | Email").headD "" := by
  constructor
  · exact (add_rejects_only_empty_text initStorage "t0" "").1 rfl
  · obtain ⟨a, h1, h2, _⟩ :=
      (add_rejects_only_empty_text initStorage "t0"
        "Test cold email | Startups | Email").2 (by decide)
    exact ⟨a, h1, h2⟩

/-- C2 (amended): pipe fields beyond the end of the split list default to
null, but a present-yet-blank middle field is stored as the empty string,
not null: `Test X | | Channel` gives hypothesis `Test X`, audience `""` and
channels `Channel`. -/
theorem add_missing_tail_fields_null (s : InMemoryStorage) (now text : String) :
    (text ≠ "" →
      ∃ a : GTMActivity,
        (handle_gtm_add s now text).2.activities = s.activities ++ [(s.next_id, a)]
        ∧ a.audience = (addParts text)[1]?
        ∧ a.channels = (addParts text)[2]?
        ∧ ((addParts text).length ≤ 1 → a.audience = none)
        ∧ ((addParts text).length ≤ 2 → a.channels = none))
    ∧ ∃ b : GTMActivity,
        (handle_gtm_add s now "Test X | | Channel").2.activities
          = s.activities ++ [(s.next_id, b)]
        ∧ b.hypothesis = "Test X" ∧ b.audience = some "" ∧ b.channels = some "Channel" := by
  constructor
  · intro h
    have hne := addParts_ne_nil text
    have hlen : ¬ ((addParts text).length < 1) := by
      have := List.length_pos.mpr hne
      omega
    refine ⟨{ id := s.next_id, hypothesis := (addParts text).headD "",
              audience := (addParts text)[1]?, channels := (addParts text)[2]?,
              created_at := now, updated_at := now }, ?_, rfl, rfl, ?_, ?_⟩
    · simp only [handle_gtm_add, if_neg h, if_neg hlen]
      rfl
    · intro hl; exact List.getElem?_eq_none hl
    · intro hl; exact List.getElem?_eq_none hl
  · refine ⟨{ id := s.next_id, hypothesis := "Test X", audience := some "",
              channels := some "Channel", created_at := now, updated_at := now },
            ?_, rfl, rfl, rfl⟩
    rfl

/-- Counterexample to C2 as stated: for `Test X | | Channel` the stored
audience is the empty string, not null. -/
theorem add_blank_middle_field_empty_string_not_null :
    ((handle_gtm_add initStorage "t0" "Test X | | Channel").2.activities.map
        (fun p => p.2.audience)) = [some ""]
    ∧ (some "" : Option String) ≠ none
    ∧ ((handle_gtm_add initStorage "t0" "Test X | | Channel").2.activities.map
        (fun p => p.2.channels)) = [some "Channel"] :=
  ⟨by decide, by decide, by decide⟩

/-- Witness for C2 (amended): a one-field argument gets null audience and
channels, and the concrete three-field example stores `""`/`Channel`. -/
theorem add_missing_tail_fields_null_witness :
    (∃ a : GTMActivity,
      (handle_gtm_add initStorage "t0" "Solo").2.activities
        = initStorage.activities ++ [(initStorage.next_id, a)]
      ∧ a.audience = none ∧ a.channels = none)
    ∧ ∃ b : GTMActivity,
        (handle_gtm_add initStorage "t0" "Test X | | Channel").2.activities
          = initStorage.activities ++ [(initStorage.next_id, b)]
        ∧ b.audience = some "" := by
  constructor
  · obtain ⟨a, h1, _, _, h4, h5⟩ :=
      (add_missing_tail_fields_null initStorage "t0" "Solo").1 (by decide)
    exact ⟨a, h1, h4 (by decide), h5 (by decide)⟩
  · obtain ⟨b, h1, _, h3, _⟩ :=
      (add_missing_tail_fields_null initStorage "t0" "ignored").2
    exact ⟨b, h1, h3⟩

/-- Witness for C6: the id `9999` on the empty store — parsed, not found,
ephemeral, and the text names both the failure and the id. -/
theorem view_not_found_ephemeral_total_witness :
    parseIntPy (viewArg "9999" false).1 = some 9999
    ∧ initStorage.get 9999 = none
    ∧ (handle_gtm_view initStorage "9999" false).response_type = "ephemeral"
    ∧ strContains (handle_gtm_view initStorage "9999" false).text "not found" = true
    ∧ strContains (handle_gtm_view initStorage "9999" false).text "9999" = true := by
  have h := (view_not_found_ephemeral_total initStorage "9999").2.1 9999 (by decide) rfl
  refine ⟨by decide, rfl, h.1, h.2.1, ?_⟩
  have h99 : toString (9999 : Int) = "9999" := by decide
  rw [← h99]
  exact h.2.2
